import Mathlib

/-!
Verification of the `favorites` Solana/Anchor program
(src/programs/favorites/src/lib.rs): a single instruction `set_favorites`
that writes a per-user `Favorites` record at a program-derived address.

The handler itself is embedded directly from the source.  The parts of the
behaviour that live in the Anchor/Solana host runtime (PDA derivation,
account initialisation, Borsh serialization on instruction exit) are not in
this repository; they are modelled from the specification, and each such
definition is marked `Modelled from the spec:` in its doc comment.
-/

namespace Favs

/-- A public key / identity; abstracted as a natural number. -/
abbrev Pubkey : Type := Nat

/-- `pub const ANCHOR_DISCRIMINATOR_SIZE: usize = 8;` from the source. -/
def ANCHOR_DISCRIMINATOR_SIZE : Nat := 8

/-- The `Favorites` account data, from the source:
`number: u64`, `color: String` (`max_len(50)`),
`hobbies: Vec<String>` (`max_len(5, 50)`). -/
structure Favorites where
  number : Nat
  color : String
  hobbies : List String
deriving DecidableEq

/-- Modelled from the spec: the `InitSpace` contribution of a `u64` field
(the fixed 8 bytes of the number). -/
def u64InitSpace : Nat := 8

/-- Modelled from the spec: the `InitSpace` contribution of a
length-prefixed string field with maximum length `maxLen`
(4-byte length prefix plus the bound). -/
def stringInitSpace (maxLen : Nat) : Nat := 4 + maxLen

/-- Modelled from the spec: the `InitSpace` contribution of a
length-prefixed list of at most `maxLen` elements, each of size
`elemSpace` (4-byte length prefix plus the element capacity). -/
def vecInitSpace (maxLen elemSpace : Nat) : Nat := 4 + maxLen * elemSpace

/-- `Favorites::INIT_SPACE`, the schema maximum encoded size computed by
the `#[derive(InitSpace)]` on the source struct with its `max_len`
attributes: number, then color with `max_len(50)`, then hobbies with
`max_len(5, 50)`. -/
def Favorites.INIT_SPACE : Nat :=
  u64InitSpace + stringInitSpace 50 + vecInitSpace 5 (stringInitSpace 50)

/-- Modelled from the spec: the encoded size of one length-prefixed
string (4-byte length prefix plus its characters). -/
def encodedStringSize (s : String) : Nat := 4 + s.length

/-- Modelled from the spec: the encoded size of a `Favorites` value in
the persisted layout: the number, then the length-prefixed color, then
the length-prefixed list of length-prefixed hobby strings. -/
def encodedSize (f : Favorites) : Nat :=
  8 + encodedStringSize f.color + (4 + (f.hobbies.map encodedStringSize).sum)

/-- The log line `msg!("Greetings from {}", context.program_id)`. -/
def greetingsLog (programId : Pubkey) : String :=
  "Greetings from " ++ toString programId

/-- The log line reporting the user, number and color. -/
def userLog (userKey : Pubkey) (number : Nat) (color : String) : String :=
  "User " ++ toString userKey ++ "\x27s favorite number is " ++ toString number
    ++ ", favorite color is " ++ color

/-- The log line reporting the hobbies. -/
def hobbiesLog (hobbies : List String) : String :=
  "User\x27s hobbies are: " ++ toString hobbies

/-- Handler-level error values (the payload an Anchor handler could put in
an `Err`); the source handler never constructs one. -/
def HandlerError : Type := String

/-- The data the handler reads from its `Context<SetFavorites>`:
the program id and the signing user account key. -/
structure SetFavoritesContext where
  program_id : Pubkey
  userKey : Pubkey

/-- What running the handler body produces: the emitted log lines, the
record stored by `set_inner`, and the returned `Result<()>`. -/
structure HandlerOutput where
  logs : List String
  favorites : Favorites
  result : Except HandlerError Unit

/-- The `set_favorites` handler body from the source: it emits the three
`msg!` lines, calls `set_inner` with a `Favorites` built from the three
inputs, and returns `Ok(())`. -/
def set_favorites (ctx : SetFavoritesContext) (number : Nat) (color : String)
    (hobbies : List String) : HandlerOutput :=
  let l1 := greetingsLog ctx.program_id
  let user_public_key := ctx.userKey
  let l2 := userLog user_public_key number color
  let l3 := hobbiesLog hobbies
  { logs := [l1, l2, l3]
    favorites := { number := number, color := color, hobbies := hobbies }
    result := Except.ok () }

/-- Modelled from the spec: a program-derived address.  The host derives
the record address as a deterministic, collision-free function of the
fixed namespace tag and the user identity (plus a host-found bump); we
model the address by the pair of its determining seeds. -/
structure Pda where
  tag : String
  user : Pubkey
deriving DecidableEq

/-- Modelled from the spec: the address derivation for the favorites
record, from the seeds `[b"favorites", user.key().as_ref()]` declared in
the source. -/
def deriveFavoritesAddress (user : Pubkey) : Pda :=
  { tag := "favorites", user := user }

/-- An allocated favorites account: its allocated size in bytes and its
current record contents. -/
structure AccountData where
  space : Nat
  favorites : Favorites
deriving DecidableEq

/-- The ledger: which favorites accounts exist, at which addresses. -/
def Ledger : Type := Pda → Option AccountData

/-- The empty ledger, before any account is created. -/
def emptyLedger : Ledger := fun _ => none

/-- Point update of a ledger. -/
def updateLedger (st : Ledger) (a : Pda) (d : AccountData) : Ledger :=
  fun x => if x = a then some d else st x

/-- A `set_favorites` transaction: the signer account, whether the
transaction carries a valid signature for it, the supplied favorites
account address, and the three instruction arguments. -/
structure SetFavoritesTx where
  user : Pubkey
  userSigned : Bool
  favoritesAccount : Pda
  number : Nat
  color : String
  hobbies : List String

/-- The ways a `set_favorites` transaction can fail.  The first three are
host-level (account validation and exit serialization); `handlerError` is
the case of the handler body itself returning an error. -/
inductive ProcessError where
  | missingSignature
  | seedsConstraintViolated
  | accountDidNotSerialize
  | handlerError (e : HandlerError)

/-- Modelled from the spec: the host-side account validation declared by
`#[derive(Accounts)] struct SetFavorites`: the user must have signed, and
the favorites account must sit at the address derived from the declared
seeds `[b"favorites", user.key()]`. -/
def accountsValidate (tx : SetFavoritesTx) : Except ProcessError Unit :=
  if tx.userSigned = false then Except.error ProcessError.missingSignature
  else if tx.favoritesAccount = deriveFavoritesAddress tx.user then Except.ok ()
  else Except.error ProcessError.seedsConstraintViolated

/-- Modelled from the spec: `init_if_needed` sizing.  If the account
already exists its allocation is kept; otherwise the host allocates
`space = ANCHOR_DISCRIMINATOR_SIZE + Favorites::INIT_SPACE` bytes. -/
def initIfNeededSpace (st : Ledger) (a : Pda) : Nat :=
  match st a with
  | some d => d.space
  | none => ANCHOR_DISCRIMINATOR_SIZE + Favorites.INIT_SPACE

/-- Modelled from the spec: the exit serialization step.  Writing the
8-byte discriminator plus the encoded record must fit in the allocated
space, otherwise the host rejects the write. -/
def exitSerialize (space : Nat) (f : Favorites) : Except ProcessError Unit :=
  if ANCHOR_DISCRIMINATOR_SIZE + encodedSize f ≤ space then Except.ok ()
  else Except.error ProcessError.accountDidNotSerialize

/-- One `set_favorites` transaction against the ledger: host account
validation, `init_if_needed` sizing, the handler body, then exit
serialization; on success the account at the favorites address holds the
new record. -/
def processSetFavorites (programId : Pubkey) (st : Ledger) (tx : SetFavoritesTx) :
    Except ProcessError Ledger :=
  match accountsValidate tx with
  | Except.error e => Except.error e
  | Except.ok () =>
    let space := initIfNeededSpace st tx.favoritesAccount
    let out := set_favorites { program_id := programId, userKey := tx.user }
      tx.number tx.color tx.hobbies
    match out.result with
    | Except.error e => Except.error (ProcessError.handlerError e)
    | Except.ok () =>
      match exitSerialize space out.favorites with
      | Except.error e => Except.error e
      | Except.ok () =>
        Except.ok (updateLedger st tx.favoritesAccount
          { space := space, favorites := out.favorites })

/-- The transaction as the caller observes it: on any failure the whole
transaction is rolled back and the ledger is unchanged. -/
def applyTx (programId : Pubkey) (st : Ledger) (tx : SetFavoritesTx) : Ledger :=
  match processSetFavorites programId st tx with
  | Except.ok st1 => st1
  | Except.error _ => st

/-- The schema bounds on the instruction inputs: color at most 50
characters, at most 5 hobbies, each at most 50 characters. -/
def validInput (color : String) (hobbies : List String) : Prop :=
  color.length ≤ 50 ∧ hobbies.length ≤ 5 ∧ ∀ h ∈ hobbies, h.length ≤ 50

instance (color : String) (hobbies : List String) :
    Decidable (validInput color hobbies) := by
  unfold validInput; infer_instance

/-- Every allocated favorites account in the ledger has the allocation
the host gives on creation. -/
def wellSized (st : Ledger) : Prop :=
  ∀ a d, st a = some d → d.space = ANCHOR_DISCRIMINATOR_SIZE + Favorites.INIT_SPACE

theorem emptyLedger_wellSized : wellSized emptyLedger := by
  intro a d h
  simp [emptyLedger] at h

theorem initIfNeededSpace_of_wellSized (st : Ledger) (a : Pda) (h : wellSized st) :
    initIfNeededSpace st a = ANCHOR_DISCRIMINATOR_SIZE + Favorites.INIT_SPACE := by
  unfold initIfNeededSpace
  cases hsa : st a with
  | none => rfl
  | some d => exact h a d hsa

theorem wellSized_update (st : Ledger) (a : Pda) (f : Favorites) (h : wellSized st) :
    wellSized (updateLedger st a
      { space := ANCHOR_DISCRIMINATOR_SIZE + Favorites.INIT_SPACE, favorites := f }) := by
  intro b d hb
  unfold updateLedger at hb
  by_cases hba : b = a
  · rw [if_pos hba] at hb
    cases hb
    rfl
  · rw [if_neg hba] at hb
    exact h b d hb

theorem hobbyListSize_le (l : List String) (k : Nat) (hlen : l.length ≤ k)
    (hmem : ∀ h ∈ l, h.length ≤ 50) :
    (l.map encodedStringSize).sum ≤ k * 54 := by
  induction l generalizing k with
  | nil => exact Nat.zero_le _
  | cons hd tl ih =>
    cases k with
    | zero => simp at hlen
    | succ k1 =>
      have h1 : hd.length ≤ 50 := hmem hd (List.mem_cons_self hd tl)
      have h2 : (tl.map encodedStringSize).sum ≤ k1 * 54 := by
        refine ih k1 ?_ ?_
        · simpa using Nat.lt_succ_iff.mp (Nat.lt_of_lt_of_le (Nat.lt_succ_self _)
            (by simpa using hlen))
        · intro h hh
          exact hmem h (List.mem_cons_of_mem hd hh)
      simp only [List.map_cons, List.sum_cons, encodedStringSize]
      have : (4 + hd.length) ≤ 54 := by omega
      calc 4 + hd.length + (tl.map encodedStringSize).sum
          ≤ 54 + k1 * 54 := Nat.add_le_add this h2
        _ = (k1 + 1) * 54 := by ring

theorem encodedSize_le_of_valid (n : Nat) (c : String) (hs : List String)
    (h : validInput c hs) :
    encodedSize { number := n, color := c, hobbies := hs } ≤ Favorites.INIT_SPACE := by
  obtain ⟨hc, hlen, hmem⟩ := h
  have hsum : (hs.map encodedStringSize).sum ≤ 5 * 54 := hobbyListSize_le hs 5 hlen hmem
  simp only [encodedSize, encodedStringSize, Favorites.INIT_SPACE, u64InitSpace,
    stringInitSpace, vecInitSpace]
  omega

theorem process_ok_of (pid : Pubkey) (st : Ledger) (tx : SetFavoritesTx)
    (hsig : tx.userSigned = true)
    (haddr : tx.favoritesAccount = deriveFavoritesAddress tx.user)
    (hcap : ANCHOR_DISCRIMINATOR_SIZE +
        encodedSize { number := tx.number, color := tx.color, hobbies := tx.hobbies } ≤
        initIfNeededSpace st tx.favoritesAccount) :
    processSetFavorites pid st tx =
      Except.ok (updateLedger st tx.favoritesAccount
        { space := initIfNeededSpace st tx.favoritesAccount,
          favorites := { number := tx.number, color := tx.color, hobbies := tx.hobbies } }) := by
  unfold processSetFavorites accountsValidate set_favorites exitSerialize
  rw [hsig]
  simp only [Bool.true_eq_false, if_false, if_pos haddr, if_pos hcap]

theorem process_ok_inversion (pid : Pubkey) (st : Ledger) (tx : SetFavoritesTx)
    (st1 : Ledger) (h : processSetFavorites pid st tx = Except.ok st1) :
    tx.userSigned = true ∧ tx.favoritesAccount = deriveFavoritesAddress tx.user ∧
    ANCHOR_DISCRIMINATOR_SIZE +
        encodedSize { number := tx.number, color := tx.color, hobbies := tx.hobbies } ≤
        initIfNeededSpace st tx.favoritesAccount ∧
    st1 = updateLedger st tx.favoritesAccount
      { space := initIfNeededSpace st tx.favoritesAccount,
        favorites := { number := tx.number, color := tx.color, hobbies := tx.hobbies } } := by
  unfold processSetFavorites accountsValidate set_favorites exitSerialize at h
  by_cases hsig : tx.userSigned = false
  · rw [if_pos hsig] at h
    cases h
  · rw [if_neg hsig] at h
    by_cases haddr : tx.favoritesAccount = deriveFavoritesAddress tx.user
    · rw [if_pos haddr] at h
      simp only at h
      by_cases hcap : ANCHOR_DISCRIMINATOR_SIZE +
          encodedSize { number := tx.number, color := tx.color, hobbies := tx.hobbies } ≤
          initIfNeededSpace st tx.favoritesAccount
      · rw [if_pos hcap] at h
        cases h
        exact ⟨by simpa using hsig, haddr, hcap, rfl⟩
      · rw [if_neg hcap] at h
        cases h
    · rw [if_neg haddr] at h
      cases h

theorem process_error_of_overflow (pid : Pubkey) (st : Ledger) (tx : SetFavoritesTx)
    (hsig : tx.userSigned = true)
    (haddr : tx.favoritesAccount = deriveFavoritesAddress tx.user)
    (hcap : ¬ ANCHOR_DISCRIMINATOR_SIZE +
        encodedSize { number := tx.number, color := tx.color, hobbies := tx.hobbies } ≤
        initIfNeededSpace st tx.favoritesAccount) :
    processSetFavorites pid st tx = Except.error ProcessError.accountDidNotSerialize := by
  unfold processSetFavorites accountsValidate set_favorites exitSerialize
  rw [hsig]
  simp only [Bool.true_eq_false, if_false, if_pos haddr, if_neg hcap]

theorem process_unsigned (pid : Pubkey) (st : Ledger) (tx : SetFavoritesTx)
    (hsig : tx.userSigned = false) :
    processSetFavorites pid st tx = Except.error ProcessError.missingSignature := by
  unfold processSetFavorites accountsValidate
  rw [if_pos hsig]

theorem updateLedger_same (st : Ledger) (a : Pda) (d : AccountData) :
    updateLedger st a d a = some d := by
  unfold updateLedger
  rw [if_pos rfl]

theorem updateLedger_other (st : Ledger) (a b : Pda) (d : AccountData) (h : b ≠ a) :
    updateLedger st a d b = st b := by
  unfold updateLedger
  rw [if_neg h]

theorem deriveFavoritesAddress_inj (u v : Pubkey)
    (h : deriveFavoritesAddress u = deriveFavoritesAddress v) : u = v := by
  have := congrArg Pda.user h
  simpa [deriveFavoritesAddress] using this

theorem constHobbySum (l : List String) (h : ∀ s ∈ l, s.length = 50) :
    (l.map encodedStringSize).sum = l.length * 54 := by
  induction l with
  | nil => simp
  | cons a t ih =>
    have ha : encodedStringSize a = 54 := by
      simp [encodedStringSize, h a (List.mem_cons_self a t)]
    have ht := ih fun s hs => h s (List.mem_cons_of_mem a hs)
    simp only [List.map_cons, List.sum_cons, List.length_cons, ha, ht]
    ring

/-- C1: for every valid input (color at most 50 characters, at most 5
hobbies each at most 50 characters) and every signed, correctly addressed
transaction against a well-sized ledger, the handler returns success, the
transaction succeeds, and the stored record equals exactly the record
built from the three inputs — nothing merged from previous contents. -/
theorem set_favorites_stores_inputs_exactly (pid : Pubkey) (st : Ledger)
    (tx : SetFavoritesTx) (hv : validInput tx.color tx.hobbies)
    (hsig : tx.userSigned = true)
    (haddr : tx.favoritesAccount = deriveFavoritesAddress tx.user)
    (hws : wellSized st) :
    (set_favorites { program_id := pid, userKey := tx.user }
        tx.number tx.color tx.hobbies).result = Except.ok () ∧
    ∃ st1, processSetFavorites pid st tx = Except.ok st1 ∧
      ∃ d, st1 (deriveFavoritesAddress tx.user) = some d ∧
        d.favorites = { number := tx.number, color := tx.color, hobbies := tx.hobbies } := by
  refine ⟨rfl, ?_⟩
  have hspace := initIfNeededSpace_of_wellSized st tx.favoritesAccount hws
  have hcap : ANCHOR_DISCRIMINATOR_SIZE +
      encodedSize { number := tx.number, color := tx.color, hobbies := tx.hobbies } ≤
      initIfNeededSpace st tx.favoritesAccount := by
    rw [hspace]
    exact Nat.add_le_add_left (encodedSize_le_of_valid tx.number tx.color tx.hobbies hv) _
  refine ⟨_, process_ok_of pid st tx hsig haddr hcap, ?_⟩
  rw [← haddr]
  exact ⟨_, updateLedger_same st tx.favoritesAccount _, rfl⟩

/-- Witness for C1 at the spec example: number 42, color blue, hobbies
chess and reading, for user 5. -/
theorem set_favorites_stores_inputs_exactly_witness :
    (set_favorites { program_id := 7, userKey := 5 } 42 "blue" ["chess", "reading"]).result
        = Except.ok () ∧
    ∃ st1, processSetFavorites 7 emptyLedger
        { user := 5, userSigned := true, favoritesAccount := deriveFavoritesAddress 5,
          number := 42, color := "blue", hobbies := ["chess", "reading"] } = Except.ok st1 ∧
      ∃ d, st1 (deriveFavoritesAddress 5) = some d ∧
        d.favorites = { number := 42, color := "blue", hobbies := ["chess", "reading"] } :=
  set_favorites_stores_inputs_exactly 7 emptyLedger
    { user := 5, userSigned := true, favoritesAccount := deriveFavoritesAddress 5,
      number := 42, color := "blue", hobbies := ["chess", "reading"] }
    (by decide) rfl rfl emptyLedger_wellSized

/-- C3: last write wins — after two successive successful calls for the
same user, the stored record is exactly the one built from the second
call's inputs, with nothing retained from the first. -/
theorem last_write_wins (pid1 pid2 : Pubkey) (st st1 st2 : Ledger)
    (tx1 tx2 : SetFavoritesTx) (huser : tx2.user = tx1.user)
    (_h1 : processSetFavorites pid1 st tx1 = Except.ok st1)
    (h2 : processSetFavorites pid2 st1 tx2 = Except.ok st2) :
    ∃ d, st2 (deriveFavoritesAddress tx1.user) = some d ∧
      d.favorites = { number := tx2.number, color := tx2.color, hobbies := tx2.hobbies } := by
  obtain ⟨-, haddr2, -, hst2⟩ := process_ok_inversion pid2 st1 tx2 st2 h2
  subst hst2
  rw [← huser, ← haddr2]
  exact ⟨_, updateLedger_same _ _ _, rfl⟩

/-- Witness for C3: user 9 stores once, then stores different values; the
record reflects only the second call. -/
theorem last_write_wins_witness :
    ∃ st1 st2, processSetFavorites 0 emptyLedger
        { user := 9, userSigned := true, favoritesAccount := deriveFavoritesAddress 9,
          number := 1, color := "blue", hobbies := ["chess"] } = Except.ok st1 ∧
      processSetFavorites 0 st1
        { user := 9, userSigned := true, favoritesAccount := deriveFavoritesAddress 9,
          number := 2, color := "red", hobbies := [] } = Except.ok st2 ∧
      ∃ d, st2 (deriveFavoritesAddress 9) = some d ∧
        d.favorites = { number := 2, color := "red", hobbies := [] } := by
  refine ⟨_, _, rfl, rfl, ?_⟩
  exact last_write_wins 0 0 emptyLedger _ _
    { user := 9, userSigned := true, favoritesAccount := deriveFavoritesAddress 9,
      number := 1, color := "blue", hobbies := ["chess"] }
    { user := 9, userSigned := true, favoritesAccount := deriveFavoritesAddress 9,
      number := 2, color := "red", hobbies := [] }
    rfl rfl rfl

/-- C4: a transaction without a valid signature from the user is rejected
before the handler runs, and a successful transaction can only have
written to the address derived from its own signer — every other account
is untouched. -/
theorem only_own_record_writable (pid : Pubkey) (st : Ledger) (tx : SetFavoritesTx) :
    (tx.userSigned = false →
      processSetFavorites pid st tx = Except.error ProcessError.missingSignature) ∧
    (∀ st1, processSetFavorites pid st tx = Except.ok st1 →
      tx.favoritesAccount = deriveFavoritesAddress tx.user ∧
      ∀ a, a ≠ deriveFavoritesAddress tx.user → st1 a = st a) := by
  constructor
  · intro hsig
    exact process_unsigned pid st tx hsig
  · intro st1 h
    obtain ⟨-, haddr, -, hst1⟩ := process_ok_inversion pid st tx st1 h
    subst hst1
    refine ⟨haddr, ?_⟩
    intro a ha
    exact updateLedger_other st _ a _ (haddr ▸ ha)

/-- Witness for C4: an unsigned transaction for user 3 is rejected with a
missing-signature error, and a signed transaction for user 3 leaves the
account of user 4 untouched. -/
theorem only_own_record_writable_witness :
    processSetFavorites 0 emptyLedger
      { user := 3, userSigned := false, favoritesAccount := deriveFavoritesAddress 3,
        number := 1, color := "", hobbies := [] } =
      Except.error ProcessError.missingSignature ∧
    ∃ st1, processSetFavorites 0 emptyLedger
        { user := 3, userSigned := true, favoritesAccount := deriveFavoritesAddress 3,
          number := 1, color := "", hobbies := [] } = Except.ok st1 ∧
      st1 (deriveFavoritesAddress 4) = emptyLedger (deriveFavoritesAddress 4) := by
  refine ⟨(only_own_record_writable 0 emptyLedger _).1 rfl, _, rfl, ?_⟩
  exact ((only_own_record_writable 0 emptyLedger
    { user := 3, userSigned := true, favoritesAccount := deriveFavoritesAddress 3,
      number := 1, color := "", hobbies := [] }).2 _ rfl).2
    (deriveFavoritesAddress 4) (by decide)

/-- C5: the record address is the deterministic function of the fixed tag
and the user identity given by the declared seeds, total by construction,
and injective — distinct users never share an address, so each identity
maps to exactly one record slot. -/
theorem derived_address_total_injective :
    (∀ u : Pubkey, deriveFavoritesAddress u = { tag := "favorites", user := u }) ∧
    (∀ u v : Pubkey, deriveFavoritesAddress u = deriveFavoritesAddress v → u = v) :=
  ⟨fun _ => rfl, deriveFavoritesAddress_inj⟩

/-- Witness for C5 at users 0 and 0. -/
theorem derived_address_total_injective_witness :
    deriveFavoritesAddress 0 = { tag := "favorites", user := 0 } ∧ (0 : Pubkey) = 0 :=
  ⟨derived_address_total_injective.1 0, derived_address_total_injective.2 0 0 rfl⟩

/-- C6: two distinct users get records at distinct derived addresses; the
call for the first user leaves every other account (in particular the
second user's record) unchanged, and after both calls the two records
hold their respective inputs independently. -/
theorem distinct_users_isolated (pid1 pid2 : Pubkey) (st st1 st2 : Ledger)
    (txX txY : SetFavoritesTx) (hne : txX.user ≠ txY.user)
    (hX : processSetFavorites pid1 st txX = Except.ok st1)
    (hY : processSetFavorites pid2 st1 txY = Except.ok st2) :
    deriveFavoritesAddress txX.user ≠ deriveFavoritesAddress txY.user ∧
    (∀ a, a ≠ deriveFavoritesAddress txX.user → st1 a = st a) ∧
    (∃ dX, st2 (deriveFavoritesAddress txX.user) = some dX ∧
      dX.favorites = { number := txX.number, color := txX.color, hobbies := txX.hobbies }) ∧
    (∃ dY, st2 (deriveFavoritesAddress txY.user) = some dY ∧
      dY.favorites = { number := txY.number, color := txY.color, hobbies := txY.hobbies }) := by
  obtain ⟨-, haX, -, hstX⟩ := process_ok_inversion pid1 st txX st1 hX
  obtain ⟨-, haY, -, hstY⟩ := process_ok_inversion pid2 st1 txY st2 hY
  have hadne : deriveFavoritesAddress txX.user ≠ deriveFavoritesAddress txY.user :=
    fun hc => hne (deriveFavoritesAddress_inj _ _ hc)
  subst hstX hstY
  refine ⟨hadne, ?_, ?_, ?_⟩
  · intro a ha
    exact updateLedger_other st _ a _ (haX ▸ ha)
  · rw [haY, updateLedger_other _ _ _ _ hadne, haX]
    exact ⟨_, updateLedger_same _ _ _, rfl⟩
  · rw [haY]
    exact ⟨_, updateLedger_same _ _ _, rfl⟩

/-- Witness for C6: users 1 and 2 store different records; both survive,
each at its own address. -/
theorem distinct_users_isolated_witness :
    ∃ st1 st2, processSetFavorites 0 emptyLedger
        { user := 1, userSigned := true, favoritesAccount := deriveFavoritesAddress 1,
          number := 10, color := "blue", hobbies := [] } = Except.ok st1 ∧
      processSetFavorites 0 st1
        { user := 2, userSigned := true, favoritesAccount := deriveFavoritesAddress 2,
          number := 20, color := "red", hobbies := ["chess"] } = Except.ok st2 ∧
      (deriveFavoritesAddress 1 ≠ deriveFavoritesAddress 2 ∧
        (∀ a, a ≠ deriveFavoritesAddress 1 → st1 a = emptyLedger a) ∧
        (∃ dX, st2 (deriveFavoritesAddress 1) = some dX ∧
          dX.favorites = { number := 10, color := "blue", hobbies := [] }) ∧
        (∃ dY, st2 (deriveFavoritesAddress 2) = some dY ∧
          dY.favorites = { number := 20, color := "red", hobbies := ["chess"] })) := by
  refine ⟨_, _, rfl, rfl, ?_⟩
  exact distinct_users_isolated 0 0 emptyLedger _ _
    { user := 1, userSigned := true, favoritesAccount := deriveFavoritesAddress 1,
      number := 10, color := "blue", hobbies := [] }
    { user := 2, userSigned := true, favoritesAccount := deriveFavoritesAddress 2,
      number := 20, color := "red", hobbies := ["chess"] }
    (by decide) rfl rfl

/-- C7: on first call for a user (the target account absent), the account
is allocated with exactly the 8-byte discriminator plus the schema
maximum size of 8 + (4 + 50) + (4 + 5 * (4 + 50)) bytes, whatever the
actual sizes of the submitted inputs were. -/
theorem init_allocation_size (pid : Pubkey) (st : Ledger) (tx : SetFavoritesTx)
    (st1 : Ledger) (hfresh : st tx.favoritesAccount = none)
    (hok : processSetFavorites pid st tx = Except.ok st1) :
    ∃ d, st1 tx.favoritesAccount = some d ∧
      d.space = ANCHOR_DISCRIMINATOR_SIZE + Favorites.INIT_SPACE ∧
      d.space = 8 + (8 + (4 + 50) + (4 + 5 * (4 + 50))) := by
  obtain ⟨-, -, -, hst1⟩ := process_ok_inversion pid st tx st1 hok
  subst hst1
  refine ⟨_, updateLedger_same _ _ _, ?_, ?_⟩
  · simp [initIfNeededSpace, hfresh]
  · simp [initIfNeededSpace, hfresh, ANCHOR_DISCRIMINATOR_SIZE, Favorites.INIT_SPACE,
      u64InitSpace, stringInitSpace, vecInitSpace]

/-- Witness for C7: user 11 with a tiny input still gets the full fixed
allocation of 344 bytes. -/
theorem init_allocation_size_witness :
    ∃ st1, processSetFavorites 0 emptyLedger
        { user := 11, userSigned := true, favoritesAccount := deriveFavoritesAddress 11,
          number := 1, color := "", hobbies := [] } = Except.ok st1 ∧
      ∃ d, st1 (deriveFavoritesAddress 11) = some d ∧
        d.space = ANCHOR_DISCRIMINATOR_SIZE + Favorites.INIT_SPACE ∧
        d.space = 8 + (8 + (4 + 50) + (4 + 5 * (4 + 50))) := by
  refine ⟨_, rfl, ?_⟩
  exact init_allocation_size 0 emptyLedger
    { user := 11, userSigned := true, favoritesAccount := deriveFavoritesAddress 11,
      number := 1, color := "", hobbies := [] } _ rfl rfl

/-- C8: the handler body never produces an error of its own — its result
is success on every input — and every error a whole transaction can
produce is one of the host-level kinds (missing signature, seeds
constraint violation, or exit-serialization overflow), never a
handler-originated error. -/
theorem handler_raises_no_error :
    (∀ (ctx : SetFavoritesContext) (n : Nat) (c : String) (hs : List String),
      (set_favorites ctx n c hs).result = Except.ok ()) ∧
    (∀ (pid : Pubkey) (st : Ledger) (tx : SetFavoritesTx) (e : ProcessError),
      processSetFavorites pid st tx = Except.error e →
        e = ProcessError.missingSignature ∨ e = ProcessError.seedsConstraintViolated ∨
          e = ProcessError.accountDidNotSerialize) := by
  refine ⟨fun _ _ _ _ => rfl, ?_⟩
  intro pid st tx e h
  unfold processSetFavorites accountsValidate set_favorites exitSerialize at h
  by_cases hsig : tx.userSigned = false
  · rw [if_pos hsig] at h
    cases h
    exact Or.inl rfl
  · rw [if_neg hsig] at h
    by_cases haddr : tx.favoritesAccount = deriveFavoritesAddress tx.user
    · rw [if_pos haddr] at h
      simp only at h
      by_cases hcap : ANCHOR_DISCRIMINATOR_SIZE +
          encodedSize { number := tx.number, color := tx.color, hobbies := tx.hobbies } ≤
          initIfNeededSpace st tx.favoritesAccount
      · rw [if_pos hcap] at h
        cases h
      · rw [if_neg hcap] at h
        cases h
        exact Or.inr (Or.inr rfl)
    · rw [if_neg haddr] at h
      cases h
      exact Or.inr (Or.inl rfl)

/-- Witness for C8: the handler returns success on a concrete input, and
the error of a concrete failing (unsigned) transaction is one of the
host-level kinds. -/
theorem handler_raises_no_error_witness :
    (set_favorites { program_id := 0, userKey := 0 } 0 "" []).result = Except.ok () ∧
    (ProcessError.missingSignature = ProcessError.missingSignature ∨
      ProcessError.missingSignature = ProcessError.seedsConstraintViolated ∨
      ProcessError.missingSignature = ProcessError.accountDidNotSerialize) :=
  ⟨handler_raises_no_error.1 { program_id := 0, userKey := 0 } 0 "" [],
    handler_raises_no_error.2 0 emptyLedger
      { user := 3, userSigned := false, favoritesAccount := deriveFavoritesAddress 3,
        number := 1, color := "", hobbies := [] }
      ProcessError.missingSignature rfl⟩

/-- C9: on every invocation the handler emits exactly its three
diagnostic log lines — the invoking program identity, the caller identity
with the submitted number and color, and the submitted hobby list — and
the stored record and the returned result are functions of the inputs
alone, unaffected by the identities that only the logs mention. -/
theorem logs_emitted_without_effect (pid pid2 u u2 : Pubkey) (n : Nat) (c : String)
    (hs : List String) :
    (set_favorites { program_id := pid, userKey := u } n c hs).logs =
      [greetingsLog pid, userLog u n c, hobbiesLog hs] ∧
    (set_favorites { program_id := pid, userKey := u } n c hs).favorites =
      { number := n, color := c, hobbies := hs } ∧
    (set_favorites { program_id := pid, userKey := u } n c hs).result = Except.ok () ∧
    (set_favorites { program_id := pid, userKey := u } n c hs).favorites =
      (set_favorites { program_id := pid2, userKey := u2 } n c hs).favorites ∧
    (set_favorites { program_id := pid, userKey := u } n c hs).result =
      (set_favorites { program_id := pid2, userKey := u2 } n c hs).result :=
  ⟨rfl, rfl, rfl, rfl, rfl⟩

/-- C10: degenerate in-bounds inputs are stored exactly: number 0 and the
maximum u64 value, an empty color and an empty hobby list all succeed,
with no default substituted and no rejection. -/
theorem degenerate_inputs_accepted :
    (∃ st1, processSetFavorites 0 emptyLedger
        { user := 6, userSigned := true, favoritesAccount := deriveFavoritesAddress 6,
          number := 0, color := "", hobbies := [] } = Except.ok st1 ∧
      ∃ d, st1 (deriveFavoritesAddress 6) = some d ∧
        d.favorites = { number := 0, color := "", hobbies := [] }) ∧
    (∃ st1, processSetFavorites 0 emptyLedger
        { user := 6, userSigned := true, favoritesAccount := deriveFavoritesAddress 6,
          number := 18446744073709551615, color := "", hobbies := [] } = Except.ok st1 ∧
      ∃ d, st1 (deriveFavoritesAddress 6) = some d ∧
        d.favorites = { number := 18446744073709551615, color := "", hobbies := [] }) :=
  ⟨⟨_, rfl, _, rfl, rfl⟩, ⟨_, rfl, _, rfl, rfl⟩⟩

/-- C2 is refuted at a concrete input: a single hobby of 51 characters
exceeds the declared schema bound, yet the transaction succeeds and the
record is mutated, because the host checks only the total encoded size
against the fixed allocation, not the per-field bounds. -/
theorem over_bound_hobby_succeeds :
    (¬ validInput "" [String.mk (List.replicate 51 'a')]) ∧
    emptyLedger (deriveFavoritesAddress 2) = none ∧
    ∃ st1, processSetFavorites 0 emptyLedger
        { user := 2, userSigned := true, favoritesAccount := deriveFavoritesAddress 2,
          number := 7, color := "",
          hobbies := [String.mk (List.replicate 51 'a')] } = Except.ok st1 ∧
      ∃ d, st1 (deriveFavoritesAddress 2) = some d ∧
        d.favorites =
          { number := 7, color := "",
            hobbies := [String.mk (List.replicate 51 'a')] } :=
  ⟨by decide, rfl, _, rfl, _, rfl, rfl⟩

/-- C2 amended: a transaction (signed, correctly addressed, well-sized
ledger) succeeds exactly when the total encoded size of the record fits
the schema capacity; when it does not, the failure is atomic — the error
is the serialization rejection and the ledger is unchanged.  In
particular 6 hobbies of 50 characters each always overflow and fail,
while an input that breaks a per-field bound but still fits in total
(such as one 51-character hobby with a short color) succeeds. -/
theorem capacity_boundary (pid : Pubkey) (st : Ledger) (tx : SetFavoritesTx)
    (hsig : tx.userSigned = true)
    (haddr : tx.favoritesAccount = deriveFavoritesAddress tx.user)
    (hws : wellSized st) :
    ((∃ st1, processSetFavorites pid st tx = Except.ok st1) ↔
      encodedSize { number := tx.number, color := tx.color, hobbies := tx.hobbies } ≤
        Favorites.INIT_SPACE) ∧
    (Favorites.INIT_SPACE <
        encodedSize { number := tx.number, color := tx.color, hobbies := tx.hobbies } →
      processSetFavorites pid st tx = Except.error ProcessError.accountDidNotSerialize ∧
      applyTx pid st tx = st) ∧
    ((tx.hobbies.length = 6 ∧ ∀ h ∈ tx.hobbies, h.length = 50) →
      processSetFavorites pid st tx = Except.error ProcessError.accountDidNotSerialize) := by
  have hspace := initIfNeededSpace_of_wellSized st tx.favoritesAccount hws
  have hfail : Favorites.INIT_SPACE <
      encodedSize { number := tx.number, color := tx.color, hobbies := tx.hobbies } →
      processSetFavorites pid st tx = Except.error ProcessError.accountDidNotSerialize := by
    intro hgt
    refine process_error_of_overflow pid st tx hsig haddr ?_
    rw [hspace]
    intro hc
    exact absurd (Nat.le_of_add_le_add_left hc) (Nat.not_le.mpr hgt)
  refine ⟨⟨?_, ?_⟩, ?_, ?_⟩
  · rintro ⟨st1, h⟩
    obtain ⟨-, -, hcap, -⟩ := process_ok_inversion pid st tx st1 h
    rw [hspace] at hcap
    exact Nat.le_of_add_le_add_left hcap
  · intro hle
    exact ⟨_, process_ok_of pid st tx hsig haddr
      (by rw [hspace]; exact Nat.add_le_add_left hle _)⟩
  · intro hgt
    have herr := hfail hgt
    refine ⟨herr, ?_⟩
    unfold applyTx
    rw [herr]
  · rintro ⟨hlen6, hall⟩
    have hsum := constHobbySum tx.hobbies hall
    rw [hlen6] at hsum
    refine hfail ?_
    simp only [encodedSize, encodedStringSize, Favorites.INIT_SPACE, u64InitSpace,
      stringInitSpace, vecInitSpace, hsum]
    omega

/-- Witness for the amended C2 at the success boundary: exactly 5 hobbies
of exactly 50 characters each, with a 50-character color, succeeds. -/
theorem capacity_boundary_witness :
    ∃ st1, processSetFavorites 0 emptyLedger
        { user := 8, userSigned := true, favoritesAccount := deriveFavoritesAddress 8,
          number := 1, color := String.mk (List.replicate 50 'a'),
          hobbies := List.replicate 5 (String.mk (List.replicate 50 'a')) } =
      Except.ok st1 :=
  (capacity_boundary 0 emptyLedger
    { user := 8, userSigned := true, favoritesAccount := deriveFavoritesAddress 8,
      number := 1, color := String.mk (List.replicate 50 'a'),
      hobbies := List.replicate 5 (String.mk (List.replicate 50 'a')) }
    rfl rfl emptyLedger_wellSized).1.mpr (by decide)

end Favs
